import Mathlib

/-!
Verification development for the conda-project repository.

The embedding models the filesystem as an existence predicate on path
strings and translates the Python modules directly:

* `src/conda_project/project.py` — `CondaProject.__init__`, `default_env`,
  `prepare` (the conda invocation is recorded, not executed).
* `src/conda_project/utils.py` — `find_file`, `env_variable`, `Spinner`.

Python `os.path.join(a, b)` for a relative `b` is modelled as
`a ++ "/" ++ b`; `os.path.abspath`/`os.path.normcase` are modelled as the
identity (the embedding works over already-absolute, case-normalized
directory strings, which is the fully general case for every property
proved here); `Path.resolve()` is modelled as an arbitrary resolution
function supplied alongside the filesystem.

The repository imports `conda_project.exceptions` and `conda_project.conda`
whose files are not present in the source tree, and its test suite
exercises a named-environment resolver (manifest files, per-environment
lockfile and prefix paths) that is likewise absent; those parts are
modelled from the specification and carry doc comments saying so.
-/

/-- A filesystem is modelled by which path strings exist. -/
def FileSystem := String → Bool

/-- Python `os.path.join(a, b)` for a relative second component. -/
def joinPath (a b : String) : String := a ++ "/" ++ b

/-- Modelled from the spec: the exceptions module (`conda_project/exceptions.py`)
is not in the source tree; the source imports a single exception class
`CondaProjectError` carrying a human-readable message, which plays every
role of the spec error taxonomy in section 7. -/
structure CondaProjectError where
  message : String
deriving DecidableEq, Repr

/-- The tuple `ENVIRONMENT_YAML_FILENAMES` from `project.py` line 9. -/
def ENVIRONMENT_YAML_FILENAMES : List String := ["environment.yml", "environment.yaml"]

/-- The `for fn in ENVIRONMENT_YAML_FILENAMES: ... break / else:` loop of
`CondaProject.__init__` (`project.py` lines 18-23): returns the first
candidate that exists, `none` when the loop falls through to `else`. -/
def findEnvFile (fs : FileSystem) (directory : String) : List String → Option String
  | [] => none
  | fn :: rest =>
    let p := joinPath directory fn
    if fs p then some p else findEnvFile fs directory rest

/-- The state built by `CondaProject.__init__` (`project.py` lines 13-24). -/
structure CondaProject where
  directory : String
  condarc : String
  environment_file : String
deriving DecidableEq, Repr

/-- Translation of `CondaProject.__init__` (`project.py` lines 13-24):
directory normalization is the identity in this embedding, `condarc` is
`directory/.condarc`, and the environment file is the first existing
candidate, else the constructor raises `CondaProjectError`. -/
def CondaProject.init (fs : FileSystem) (directory : String) : Except CondaProjectError CondaProject :=
  match findEnvFile fs directory ENVIRONMENT_YAML_FILENAMES with
  | some f =>
    .ok { directory := directory
          condarc := joinPath directory ".condarc"
          environment_file := f }
  | none =>
    .error { message := "No Conda environment.yml or environment.yaml file was found in " ++ directory ++ "." }

/-- Translation of `CondaProject.default_env` (`project.py` lines 26-27). -/
def CondaProject.default_env (p : CondaProject) : String :=
  joinPath (joinPath p.directory "envs") "default"

/-- Outcome of `CondaProject.prepare`: whether `call_conda` was invoked,
the argument list it was handed, and the returned prefix path.
`call_conda` lives in `conda_project/conda.py`, which is not in the source
tree; per the spec (section 6) it only shells out, so the embedding records
the invocation instead of performing it. -/
structure PrepareOutcome where
  invokedConda : Bool
  condaArgs : List String
  result : String
deriving DecidableEq, Repr

/-- Translation of `CondaProject.prepare` (`project.py` lines 29-41).
The Python reassigns `force` to the string `'--force'` or `''` before
testing `os.path.exists(conda_meta) and not force`; the embedding keeps
that order, so the test reads the truthiness of the string. -/
def CondaProject.prepare (p : CondaProject) (fs : FileSystem) (force : Bool) : PrepareOutcome :=
  let default_env := p.default_env
  let conda_meta := joinPath (joinPath default_env "conda-meta") "history"
  let forceArg := if force then "--force" else ""
  if fs conda_meta && (forceArg == "") then
    { invokedConda := false, condaArgs := [], result := default_env }
  else
    { invokedConda := true
      condaArgs := ["env", "create", "-f", p.environment_file, "-p", default_env, forceArg]
      result := default_env }

/-- Python `"\n".join(xs)` (used by `find_file` in `utils.py` line 101). -/
def joinLines : List String → String
  | [] => ""
  | [p] => p
  | p :: rest => p ++ "\n" ++ joinLines rest

/-- The message raised by `find_file` when several variants exist
(`utils.py` lines 101-104). -/
def multipleVariantsMessage (found : List String) : String :=
  "Multiple variants of the same file were found.\n" ++ joinLines found ++ "\nConsider using one of them."

/-- The list `found` accumulated by the loop in `find_file`
(`utils.py` lines 91-96): for each candidate filename, in order, the
resolved path of `directory / filename` when it exists. -/
def foundFiles (fs : FileSystem) (resolve : String → String) (directory : String) (options : List String) : List String :=
  options.filterMap (fun filename =>
    let path := joinPath directory filename
    if fs path then some (resolve path) else none)

/-- Translation of `find_file` (`utils.py` lines 81-106): one match returns
it, several raise `CondaProjectError`, zero return `None`. -/
def find_file (fs : FileSystem) (resolve : String → String) (directory : String) (options : List String) : Except CondaProjectError (Option String) :=
  let found := foundFiles fs resolve directory options
  if found.length = 1 then
    .ok found.head?
  else if found.length > 1 then
    .error { message := multipleVariantsMessage found }
  else
    .ok none

/-- The process environment, keyed by variable name (`os.environ`). -/
def EnvMap := String → Option String

/-- Python `os.environ[key] = value`. -/
def envSet (e : EnvMap) (key value : String) : EnvMap :=
  fun k => if k = key then some value else e k

/-- Python `os.environ.pop(key, None)`. -/
def envPop (e : EnvMap) (key : String) : EnvMap :=
  fun k => if k = key then none else e k

/-- Translation of the `env_variable` context manager (`utils.py` lines
18-29) on the path where the managed block completes normally: record the
old value, set the variable, run the block (modelled as an arbitrary
transformation of the environment), then pop the key when it was unset
before, else restore the old value. -/
def env_variable (key value : String) (body : EnvMap → EnvMap) (e : EnvMap) : EnvMap :=
  let old := e key
  let e1 := envSet e key value
  let e2 := body e1
  match old with
  | none => envPop e2 key
  | some o => envSet e2 key o

/-- A Python exception value, abstracted to its description. -/
def PyExc := String

/-- State of a `Spinner` (`utils.py` lines 32-78): the prefix text, whether
`self._event` has been set, whether the spin thread was started, and
whether it has been joined. The drawing loop `_spin` runs while the event
is unset, so a set event together with a completed `join` is the stopped
thread. -/
structure Spinner where
  prefixText : String
  eventIsSet : Bool
  threadStarted : Bool
  threadJoined : Bool
deriving DecidableEq, Repr

/-- Translation of `Spinner.__init__`: event unset, thread not started. -/
def Spinner.create (text : String) : Spinner :=
  { prefixText := text, eventIsSet := false, threadStarted := false, threadJoined := false }

/-- Translation of `Spinner.start` (`utils.py` lines 58-59). -/
def Spinner.start (s : Spinner) : Spinner :=
  { s with threadStarted := true }

/-- Translation of `Spinner.stop` (`utils.py` lines 61-67): sets the event
and joins the spin thread (terminal writes are side effects outside the
state). -/
def Spinner.stop (s : Spinner) : Spinner :=
  { s with eventIsSet := true, threadJoined := true }

/-- Translation of `Spinner.__enter__` (`utils.py` lines 69-70). -/
def Spinner.enterCM (s : Spinner) : Spinner :=
  s.start

/-- Translation of `Spinner.__exit__` (`utils.py` lines 72-78): it receives
the exception information (or `none` on a normal exit) and unconditionally
calls `stop`. -/
def Spinner.exitCM (s : Spinner) (_exc : Option PyExc) : Spinner :=
  s.stop

/-- Semantics of the Python statement `with spinner: body` for an
`__exit__` that never suppresses exceptions: `__enter__` runs, the block
either returns a value or raises, and `__exit__` runs on both paths with
the corresponding exception information; the block outcome is then
propagated unchanged. -/
def runWith (s : Spinner) (body : Except PyExc α) : Spinner × Except PyExc α :=
  let s1 := s.enterCM
  match body with
  | .ok a => (s1.exitCM none, .ok a)
  | .error e => (s1.exitCM (some e), .error e)

/-- An environment of the named-environment model.
Modelled from the spec: the data model of section 3 (name, ordered
sources, derived lockfile and prefix paths) is exercised by the test suite
but its implementation is not in the source tree. -/
structure Environment where
  name : String
  sources : List String
  lockfile : String
  prefixPath : String
deriving DecidableEq, Repr

/-- Modelled from the spec: section 3 derives `lockfile` as
`directory/{name}.conda-lock.yml` and `prefix` as `directory/envs/{name}`,
both pure functions of the project directory and the environment name. -/
def mkEnvironment (directory name : String) (sources : List String) : Environment :=
  { name := name
    sources := sources
    lockfile := joinPath directory (name ++ ".conda-lock.yml")
    prefixPath := joinPath (joinPath directory "envs") name }

/-- Modelled from the spec: resolution step 3 resolves each relative
source path against the manifest directory and fails with the
source-not-found error when a resolved path does not exist. -/
def resolveSources (fs : FileSystem) (directory : String) : List String → Except CondaProjectError (List String)
  | [] => .ok []
  | rel :: rest =>
    let p := joinPath directory rel
    if fs p then
      match resolveSources fs directory rest with
      | .ok ps => .ok (p :: ps)
      | .error e => .error e
    else
      .error { message := "Source " ++ p ++ " was not found." }

/-- Modelled from the spec: resolution step 3 builds one environment per
manifest entry, preserving the declaration order of environments and of
each environment's sources. -/
def resolveEnvs (fs : FileSystem) (directory : String) : List (String × List String) → Except CondaProjectError (List Environment)
  | [] => .ok []
  | entry :: rest =>
    match resolveSources fs directory entry.2 with
    | .error e => .error e
    | .ok srcs =>
      match resolveEnvs fs directory rest with
      | .error e => .error e
      | .ok envs => .ok (mkEnvironment directory entry.1 srcs :: envs)

/-- Modelled from the spec: a resolved project is the directory together
with its ordered environments (section 3). -/
structure Project where
  directory : String
  environments : List Environment
deriving DecidableEq, Repr

/-- Modelled from the spec: `default_environment` is the first environment
in declaration order (section 3 and step 3 of section 4.1). -/
def Project.defaultEnvironment? (p : Project) : Option Environment :=
  p.environments.head?

/-- Modelled from the spec: `resolve(directory)` of section 4.1. Manifest
mode builds the declared environments in order; legacy mode reuses the
source behavior of `CondaProject.__init__` for discovery and synthesizes a
single environment named `"default"` whose sole source is the discovered
file. -/
def resolveProject (fs : FileSystem) (directory : String) (manifest : Option (List (String × List String))) : Except CondaProjectError Project :=
  match manifest with
  | some entries =>
    match resolveEnvs fs directory entries with
    | .error e => .error e
    | .ok envs => .ok { directory := directory, environments := envs }
  | none =>
    match findEnvFile fs directory ENVIRONMENT_YAML_FILENAMES with
    | some f => .ok { directory := directory, environments := [mkEnvironment directory "default" [f]] }
    | none => .error { message := "No Conda environment.yml or environment.yaml file was found in " ++ directory ++ "." }

/-! Theorems about the claims. -/

/-- Claim C2: for every directory containing exactly one of
`environment.yml`/`environment.yaml`, construction succeeds, the project
single environment is the one named `"default"` (its prefix is
`directory/envs/default`), and its sole source is exactly the file that
exists. -/
theorem claim_C2_single_file (fs : FileSystem) (d : String)
    (h : fs (joinPath d "environment.yml") ≠ fs (joinPath d "environment.yaml")) :
    ∃ p : CondaProject,
      CondaProject.init fs d = .ok p ∧
      p.environment_file =
        (if fs (joinPath d "environment.yml") then joinPath d "environment.yml"
         else joinPath d "environment.yaml") ∧
      fs p.environment_file = true ∧
      p.default_env = joinPath (joinPath d "envs") "default" := by
  cases hy : fs (joinPath d "environment.yml") <;>
    cases ha : fs (joinPath d "environment.yaml")
  · exact absurd (hy.trans ha.symm) h
  · refine ⟨{ directory := d, condarc := joinPath d ".condarc",
              environment_file := joinPath d "environment.yaml" }, ?_, ?_, ?_, ?_⟩
    · simp [CondaProject.init, findEnvFile, ENVIRONMENT_YAML_FILENAMES, hy, ha]
    · simp [hy]
    · exact ha
    · rfl
  · refine ⟨{ directory := d, condarc := joinPath d ".condarc",
              environment_file := joinPath d "environment.yml" }, ?_, ?_, ?_, ?_⟩
    · simp [CondaProject.init, findEnvFile, ENVIRONMENT_YAML_FILENAMES, hy]
    · simp [hy]
    · exact hy
    · rfl
  · exact absurd (hy.trans ha.symm) h

/-- Witness for claim C2 at a concrete directory containing only
`environment.yaml`. -/
theorem claim_C2_witness :
    ((fun q => q == joinPath "/p" "environment.yaml") : FileSystem) (joinPath "/p" "environment.yml")
      ≠ ((fun q => q == joinPath "/p" "environment.yaml") : FileSystem) (joinPath "/p" "environment.yaml") ∧
    ∃ p : CondaProject,
      CondaProject.init (fun q => q == joinPath "/p" "environment.yaml") "/p" = .ok p ∧
      p.environment_file =
        (if ((fun q => q == joinPath "/p" "environment.yaml") : FileSystem) (joinPath "/p" "environment.yml")
         then joinPath "/p" "environment.yml" else joinPath "/p" "environment.yaml") ∧
      ((fun q => q == joinPath "/p" "environment.yaml") : FileSystem) p.environment_file = true ∧
      p.default_env = joinPath (joinPath "/p" "envs") "default" :=
  ⟨by decide, claim_C2_single_file (fun q => q == joinPath "/p" "environment.yaml") "/p" (by decide)⟩

/-- Claim C3: for every directory containing neither candidate file,
construction fails with the missing-project error (the source raises its
single exception class `CondaProjectError` with the message of
`project.py` line 24). -/
theorem claim_C3_no_file (fs : FileSystem) (d : String)
    (h1 : fs (joinPath d "environment.yml") = false)
    (h2 : fs (joinPath d "environment.yaml") = false) :
    CondaProject.init fs d =
      .error { message := "No Conda environment.yml or environment.yaml file was found in " ++ d ++ "." } := by
  simp [CondaProject.init, findEnvFile, ENVIRONMENT_YAML_FILENAMES, h1, h2]

/-- Witness for claim C3 on the empty filesystem. -/
theorem claim_C3_witness :
    CondaProject.init (fun _ => false) "/p" =
      .error { message := "No Conda environment.yml or environment.yaml file was found in " ++ "/p" ++ "." } :=
  claim_C3_no_file (fun _ => false) "/p" rfl rfl

/-- Claim C9: for every directory containing both `environment.yml` and
`environment.yaml`, construction succeeds and deterministically selects
`environment.yml`, the first name of `ENVIRONMENT_YAML_FILENAMES`. -/
theorem claim_C9_both_files_first_wins (fs : FileSystem) (d : String)
    (h1 : fs (joinPath d "environment.yml") = true)
    (h2 : fs (joinPath d "environment.yaml") = true) :
    CondaProject.init fs d =
      .ok { directory := d, condarc := joinPath d ".condarc",
            environment_file := joinPath d "environment.yml" } := by
  simp [CondaProject.init, findEnvFile, ENVIRONMENT_YAML_FILENAMES, h1]

/-- Witness for claim C9 on a filesystem where every path exists. -/
theorem claim_C9_witness :
    CondaProject.init (fun _ => true) "/p" =
      .ok { directory := "/p", condarc := joinPath "/p" ".condarc",
            environment_file := joinPath "/p" "environment.yml" } :=
  claim_C9_both_files_first_wins (fun _ => true) "/p" rfl rfl

/-- Counterexample to claim C1: in a directory where both
`environment.yml` and `environment.yaml` exist, construction does not fail
at all — it succeeds, selecting `environment.yml` (the `for`/`break` loop
of `CondaProject.__init__` never consults `find_file`). -/
theorem claim_C1_counterexample :
    CondaProject.init (fun _ => true) "/p" =
      .ok { directory := "/p", condarc := joinPath "/p" ".condarc",
            environment_file := joinPath "/p" "environment.yml" } := by
  rfl

/-- Claim C1 as amended: for every directory containing both
`environment.yml` and `environment.yaml`, construction succeeds (no
`AmbiguousFileError` is raised; the ambiguity check of `find_file` is not
used by the constructor). -/
theorem claim_C1_both_files_succeeds (fs : FileSystem) (d : String)
    (h1 : fs (joinPath d "environment.yml") = true)
    (h2 : fs (joinPath d "environment.yaml") = true) :
    ∃ p, CondaProject.init fs d = .ok p :=
  ⟨_, claim_C9_both_files_first_wins fs d h1 h2⟩

/-- Witness for the amended claim C1. -/
theorem claim_C1_witness :
    ∃ p, CondaProject.init (fun _ => true) "/q" = .ok p :=
  claim_C1_both_files_succeeds (fun _ => true) "/q" rfl rfl

/-- Claim C5: `prepare` invokes the external environment-creation tool
exactly when the `conda-meta/history` marker is absent at the prefix or
`force` is set, and in every case it returns the prefix path; in
particular, when the marker exists and `force` is false it returns the
prefix without invoking the tool. -/
theorem claim_C5_prepare_marker (p : CondaProject) (fs : FileSystem) (force : Bool) :
    (p.prepare fs force).invokedConda
      = (!(fs (joinPath (joinPath p.default_env "conda-meta") "history")) || force) ∧
    (p.prepare fs force).result = p.default_env := by
  cases force <;>
    cases h : fs (joinPath (joinPath p.default_env "conda-meta") "history") <;>
      simp [CondaProject.prepare, h]

/-- Every member of a list is a segment of the joined string, in the sense
that the join splits as some text, the member, then some text. -/
theorem joinLines_mem_split : ∀ (l : List String) (p : String), p ∈ l →
    ∃ pre post, joinLines l = pre ++ p ++ post := by
  intro l
  induction l with
  | nil => intro p h; cases h
  | cons a t ih =>
    intro p h
    rcases List.mem_cons.mp h with rfl | hmem
    · cases t with
      | nil => exact ⟨"", "", by simp [joinLines, String.append_empty, String.empty_append]⟩
      | cons b t2 =>
        refine ⟨"", "\n" ++ joinLines (b :: t2), ?_⟩
        simp [joinLines, String.empty_append, String.append_assoc]
    · obtain ⟨pre, post, hpp⟩ := ih p hmem
      cases t with
      | nil => cases hmem
      | cons b t2 =>
        refine ⟨a ++ "\n" ++ pre, post, ?_⟩
        simp [joinLines, hpp, String.append_assoc]

/-- Claim C7: `find_file` returns `none` when zero candidates exist,
returns the single resolved path when exactly one exists, and with two or
more matches raises the error whose message splits around every matched
path (it enumerates all of them). -/
theorem claim_C7_find_file (fs : FileSystem) (resolve : String → String) (directory : String) (options : List String) :
    (foundFiles fs resolve directory options = [] →
       find_file fs resolve directory options = .ok none) ∧
    (∀ p, foundFiles fs resolve directory options = [p] →
       find_file fs resolve directory options = .ok (some p)) ∧
    (2 ≤ (foundFiles fs resolve directory options).length →
       find_file fs resolve directory options =
         .error { message := multipleVariantsMessage (foundFiles fs resolve directory options) } ∧
       ∀ p ∈ foundFiles fs resolve directory options,
         ∃ pre post,
           multipleVariantsMessage (foundFiles fs resolve directory options) = pre ++ p ++ post) := by
  refine ⟨?_, ?_, ?_⟩
  · intro h
    simp [find_file, h]
  · intro p h
    simp [find_file, h]
  · intro h
    constructor
    · have h1 : (foundFiles fs resolve directory options).length ≠ 1 := by omega
      have h2 : (foundFiles fs resolve directory options).length > 1 := by omega
      simp [find_file, h1, h2]
    · intro p hp
      obtain ⟨pre, post, hs⟩ := joinLines_mem_split _ p hp
      refine ⟨"Multiple variants of the same file were found.\n" ++ pre,
              post ++ "\nConsider using one of them.", ?_⟩
      simp [multipleVariantsMessage, hs, String.append_assoc]

/-- Witness for claim C7: the zero-, one- and many-match cases at concrete
inputs. -/
theorem claim_C7_witness :
    find_file (fun _ => false) id "/d" ["a"] = .ok none ∧
    find_file (fun _ => true) id "/d" ["a"] = .ok (some (joinPath "/d" "a")) ∧
    find_file (fun _ => true) id "/d" ["a", "b"] =
      .error { message := multipleVariantsMessage (foundFiles (fun _ => true) id "/d" ["a", "b"]) } :=
  ⟨(claim_C7_find_file (fun _ => false) id "/d" ["a"]).1 rfl,
   (claim_C7_find_file (fun _ => true) id "/d" ["a"]).2.1 (joinPath "/d" "a") rfl,
   ((claim_C7_find_file (fun _ => true) id "/d" ["a", "b"]).2.2 (by decide)).1⟩

/-- Claim C8: the spinner context manager stops the spin thread on every
exit path of the managed block — the drive event is set and the thread
joined whether the block returns or raises — and the block outcome is
propagated unchanged. -/
theorem claim_C8_spinner_cleanup {α : Type} (s : Spinner) (body : Except PyExc α) :
    ((runWith s body).1.eventIsSet = true ∧ (runWith s body).1.threadJoined = true) ∧
    (runWith s body).2 = body := by
  cases body <;>
    simp [runWith, Spinner.enterCM, Spinner.exitCM, Spinner.stop, Spinner.start]

/-- Claim C10: when the managed block of `env_variable` completes
normally, the process environment entry for the key is restored to its
prior state — removed when the key was previously unset, otherwise set
back to the previous value — regardless of what the block did to the
environment. -/
theorem claim_C10_env_variable_restores (key value : String) (body : EnvMap → EnvMap) (e : EnvMap) :
    env_variable key value body e key = e key := by
  cases h : e key <;> simp [env_variable, h, envPop, envSet]

/-- Every environment produced by the manifest resolver is built by
`mkEnvironment` for the resolving directory. -/
theorem resolveEnvs_mem (fs : FileSystem) (d : String) :
    ∀ (entries : List (String × List String)) (envs : List Environment),
      resolveEnvs fs d entries = .ok envs →
      ∀ e ∈ envs, ∃ nm srcs, e = mkEnvironment d nm srcs := by
  intro entries
  induction entries with
  | nil =>
    intro envs h e he
    simp [resolveEnvs] at h
    subst h
    cases he
  | cons entry rest ih =>
    intro envs h e he
    cases hs : resolveSources fs d entry.2 with
    | error err => simp [resolveEnvs, hs] at h
    | ok srcs =>
      cases hr : resolveEnvs fs d rest with
      | error err => simp [resolveEnvs, hs, hr] at h
      | ok envs2 =>
        simp [resolveEnvs, hs, hr] at h
        subst h
        rcases List.mem_cons.mp he with rfl | hmem
        · exact ⟨entry.1, srcs, rfl⟩
        · exact ih envs2 hr e hmem

/-- Claim C4: for every environment of a resolved project, the derived
paths are the pure functions of the project directory and the environment
name given in the spec data model: the lockfile is
`directory/{name}.conda-lock.yml` and the prefix is
`directory/envs/{name}`. -/
theorem claim_C4_derived_paths (fs : FileSystem) (directory : String)
    (manifest : Option (List (String × List String))) (pr : Project)
    (h : resolveProject fs directory manifest = .ok pr) :
    ∀ e ∈ pr.environments,
      e.lockfile = joinPath directory (e.name ++ ".conda-lock.yml") ∧
      e.prefixPath = joinPath (joinPath directory "envs") e.name := by
  intro e he
  have key : ∃ nm srcs, e = mkEnvironment directory nm srcs := by
    cases manifest with
    | some entries =>
      cases hr : resolveEnvs fs directory entries with
      | error err => simp [resolveProject, hr] at h
      | ok envs =>
        simp [resolveProject, hr] at h
        subst h
        exact resolveEnvs_mem fs directory entries envs hr e he
    | none =>
      cases hf : findEnvFile fs directory ENVIRONMENT_YAML_FILENAMES with
      | none => simp [resolveProject, hf] at h
      | some f =>
        simp [resolveProject, hf] at h
        subst h
        exact ⟨"default", [f], List.mem_singleton.mp he⟩
  obtain ⟨nm, srcs, rfl⟩ := key
  exact ⟨rfl, rfl⟩

/-- Witness for claim C4 on a concrete one-entry manifest. -/
theorem claim_C4_witness :
    resolveProject (fun _ => true) "/p" (some [("a", ["x.yml"])]) =
      .ok { directory := "/p", environments := [mkEnvironment "/p" "a" [joinPath "/p" "x.yml"]] } ∧
    ∀ e ∈ ({ directory := "/p", environments := [mkEnvironment "/p" "a" [joinPath "/p" "x.yml"]] } : Project).environments,
      e.lockfile = joinPath "/p" (e.name ++ ".conda-lock.yml") ∧
      e.prefixPath = joinPath (joinPath "/p" "envs") e.name :=
  ⟨rfl, claim_C4_derived_paths (fun _ => true) "/p" (some [("a", ["x.yml"])]) _ rfl⟩

/-- Claim C6: for a manifest declaring environments in the order
`[bbb, default]`, resolution succeeds (when the sources exist) and the
default environment is the first-declared one, named `"bbb"`, even though
another entry is literally named `"default"`. -/
theorem claim_C6_first_declared_default (fs : FileSystem) (d s1 s2 : String)
    (h1 : fs (joinPath d s1) = true) (h2 : fs (joinPath d s2) = true) :
    ∃ pr, resolveProject fs d (some [("bbb", [s1]), ("default", [s2])]) = .ok pr ∧
      ∃ e, pr.defaultEnvironment? = some e ∧ e.name = "bbb" := by
  refine ⟨{ directory := d,
            environments := [mkEnvironment d "bbb" [joinPath d s1],
                             mkEnvironment d "default" [joinPath d s2]] }, ?_, ?_⟩
  · simp [resolveProject, resolveEnvs, resolveSources, h1, h2]
  · exact ⟨mkEnvironment d "bbb" [joinPath d s1], rfl, rfl⟩

/-- Witness for claim C6 on a concrete manifest and filesystem. -/
theorem claim_C6_witness :
    ∃ pr, resolveProject (fun _ => true) "/p" (some [("bbb", ["e1.yml"]), ("default", ["e2.yml"])]) = .ok pr ∧
      ∃ e, pr.defaultEnvironment? = some e ∧ e.name = "bbb" :=
  claim_C6_first_declared_default (fun _ => true) "/p" "e1.yml" "e2.yml" rfl rfl
